import Mathlib

/-!
Verification development for the "gorras" reaction-trainer repository.

The session state machine, scoring and spawn logic live in `src/App.tsx`;
settings validation lives in `src/services/storageService.ts`.  This file
gives a shallow embedding of those functions (JS numbers are modelled as
rationals `ℚ`, integer counters as `ℕ`/`ℤ`) and proves or refutes the
specification claims about them.
-/

namespace Gorras

/-- Game modes, from `GameMode` in `src/types.ts` (enum values
`'Contrarreloj'` / `'Supervivencia'`). -/
inductive GameMode
  | timeTrial
  | survival
deriving DecidableEq

/-- The slice of `GameSettings` that the session engine in `App.tsx`
reads: `settings.gameMode`, `settings.bubbleSize`, `settings.spawnDelay`,
`settings.duration`. -/
structure SessionSettings where
  gameMode : GameMode
  bubbleSize : ℚ
  spawnDelay : ℤ
  duration : ℤ
deriving DecidableEq

/-- `GameStats` from `src/types.ts`: the session state owned by `App.tsx`.
`score`, `timeLeft` and `lives` are modelled as integers (`lives` can go
negative in the code, see `handleMiss`). -/
structure GameStats where
  score : ℤ
  combo : ℕ
  maxCombo : ℕ
  hits : ℕ
  misses : ℕ
  timeLeft : ℤ
  lives : ℤ
  level : ℕ
  isPlaying : Bool
deriving DecidableEq

/-- The fresh stats that `startGame` (App.tsx:339-349) installs. -/
def startStats (settings : SessionSettings) : GameStats :=
  { score := 0, combo := 0, maxCombo := 0, hits := 0, misses := 0,
    timeLeft := settings.duration, lives := 3, level := 1, isPlaying := true }

/-- JavaScript `Math.round` on a rational: round half toward positive
infinity, `⌊q + 1/2⌋`. -/
def jsRound (q : ℚ) : ℤ := ⌊q + 1 / 2⌋

/-- `Math.max(0, 100 - Math.floor(reactionTime / 10))` (App.tsx:417).
`reactionTime` is a difference of `Date.now()` values, a natural number,
so `Math.floor` is natural division by 10. -/
def speedBonus (reactionTime : ℕ) : ℤ := max 0 (100 - ((reactionTime / 10 : ℕ) : ℤ))

/-- The points awarded for a hit (App.tsx:417-421):
`Math.round((100 + speedBonus) * (150 / settings.bubbleSize) * (1 + combo * 0.1))`. -/
def hitPoints (settings : SessionSettings) (combo : ℕ) (reactionTime : ℕ) : ℤ :=
  jsRound ((100 + (speedBonus reactionTime : ℚ)) * (150 / settings.bubbleSize)
    * (1 + (combo : ℚ) * (1 / 10)))

/-- The state update of `handleHit` (App.tsx:412-440): add points, bump
combo/hits, track maxCombo, and in Survival raise the level on every 10th
combo. -/
def handleHit (settings : SessionSettings) (reactionTime : ℕ) (s : GameStats) : GameStats :=
  { s with
    score := s.score + hitPoints settings s.combo reactionTime,
    combo := s.combo + 1,
    maxCombo := max s.maxCombo (s.combo + 1),
    hits := s.hits + 1,
    level :=
      if settings.gameMode = GameMode.survival ∧ (s.combo + 1) % 10 = 0 then s.level + 1
      else s.level }

/-- The state update of `handleMiss` (App.tsx:458-477).  Note the two
branches of the source: when Survival and `newLives <= 0` the session ends
with `lives := 0` and only `misses` incremented (combo and score are left
as they were); otherwise combo resets, a life is deducted (in either
mode), and 50 points are removed, floored at 0. -/
def handleMiss (settings : SessionSettings) (s : GameStats) : GameStats :=
  if settings.gameMode = GameMode.survival ∧ s.lives - 1 ≤ 0 then
    { s with lives := 0, isPlaying := false, misses := s.misses + 1 }
  else
    { s with
      combo := 0
      misses := s.misses + 1
      lives := s.lives - 1
      score := max 0 (s.score - 50) }

/-- The body of the 1-second countdown interval installed by `startTimer`
(App.tsx:294-311, TimeTrial only): at `timeLeft <= 1` the session ends
with `timeLeft := 0`, otherwise the clock decrements. -/
def tickTimer (s : GameStats) : GameStats :=
  if s.timeLeft ≤ 1 then { s with timeLeft := 0, isPlaying := false }
  else { s with timeLeft := s.timeLeft - 1 }

/-- `handleSurrender` (App.tsx:367-370): force the session to end. -/
def surrenderGame (s : GameStats) : GameStats :=
  { s with isPlaying := false, timeLeft := 0 }

/-- The discrete session events delivered by the presentation layer. -/
inductive GameEvent
  | hit (reactionTime : ℕ)
  | miss
  | tick
  | surrender
deriving DecidableEq

/-- One engine transition.  Events only act while `isPlaying`: the click
handlers guard on `gameStats.isPlaying` (App.tsx:481, 522, 530) and the
countdown interval exists only during a TimeTrial session (it is cleared
by `endGame`/`startTimer`). -/
def step (settings : SessionSettings) (s : GameStats) (e : GameEvent) : GameStats :=
  if s.isPlaying then
    match e with
    | GameEvent.hit rt => handleHit settings rt s
    | GameEvent.miss => handleMiss settings s
    | GameEvent.tick =>
        if settings.gameMode = GameMode.timeTrial then tickTimer s else s
    | GameEvent.surrender => surrenderGame s
  else s

/-- Run a list of events from a state. -/
def run (settings : SessionSettings) (s : GameStats) : List GameEvent → GameStats
  | [] => s
  | e :: es => run settings (step settings s e) es

/-- The state reached from a fresh session after a list of events. -/
def runFrom (settings : SessionSettings) (evs : List GameEvent) : GameStats :=
  run settings (startStats settings) evs

/-- Default-difficulty TimeTrial settings (`DEFAULT_SETTINGS` in
`storageService.ts`: bubbleSize 60, spawnDelay 200, duration 60). -/
def ttSettings : SessionSettings :=
  { gameMode := GameMode.timeTrial, bubbleSize := 60, spawnDelay := 200, duration := 60 }

/-- The same defaults with the Survival mode selected. -/
def svSettings : SessionSettings :=
  { gameMode := GameMode.survival, bubbleSize := 60, spawnDelay := 200, duration := 60 }

/-! Basic lemmas about `step` and `run`. -/

lemma step_of_ended (settings : SessionSettings) (s : GameStats) (e : GameEvent)
    (h : s.isPlaying = false) : step settings s e = s := by
  simp [step, h]

lemma step_hit_eq (settings : SessionSettings) (s : GameStats) (rt : ℕ)
    (h : s.isPlaying = true) :
    step settings s (GameEvent.hit rt) = handleHit settings rt s := by
  simp [step, h]

lemma step_miss_eq (settings : SessionSettings) (s : GameStats)
    (h : s.isPlaying = true) :
    step settings s GameEvent.miss = handleMiss settings s := by
  simp [step, h]

lemma step_tick_eq (settings : SessionSettings) (s : GameStats)
    (h : s.isPlaying = true) :
    step settings s GameEvent.tick
      = if settings.gameMode = GameMode.timeTrial then tickTimer s else s := by
  simp [step, h]

lemma step_surrender_eq (settings : SessionSettings) (s : GameStats)
    (h : s.isPlaying = true) :
    step settings s GameEvent.surrender = surrenderGame s := by
  simp [step, h]

lemma run_append (settings : SessionSettings) (s : GameStats) (l₁ l₂ : List GameEvent) :
    run settings s (l₁ ++ l₂) = run settings (run settings s l₁) l₂ := by
  induction l₁ generalizing s with
  | nil => rfl
  | cons e es ih => simp [run, ih]

/-- Every property preserved by each transition holds along every run. -/
lemma run_inv (settings : SessionSettings) (P : GameStats → Prop)
    (hstep : ∀ s e, P s → P (step settings s e)) :
    ∀ (evs : List GameEvent) (s : GameStats), P s → P (run settings s evs)
  | [], _, h => h
  | e :: es, s, h => run_inv settings P hstep es _ (hstep s e h)

/-! ### C1: points awarded per hit -/

/-- C1: a hit processed while Running adds exactly
`round((100 + speedBonus) * sizeMultiplier * comboMultiplier)` points, with
`speedBonus = max(0, 100 - floor(reactionTimeMs/10))`,
`sizeMultiplier = 150/bubbleSize` and `comboMultiplier = 1 + 0.1*combo`
(pre-increment combo); with `bubbleSize = 60`, `reactionTimeMs = 100` and
`combo = 0` exactly 475 points are added. -/
theorem c1_hit_points (settings : SessionSettings) (s : GameStats) (rt : ℕ)
    (hp : s.isPlaying = true) :
    (step settings s (GameEvent.hit rt)).score
      = s.score + ⌊(100 + max 0 (100 - ((rt / 10 : ℕ) : ℚ)))
          * (150 / settings.bubbleSize) * (1 + (s.combo : ℚ) * (1 / 10)) + 1 / 2⌋
    ∧ (settings.bubbleSize = 60 → rt = 100 → s.combo = 0 →
        (step settings s (GameEvent.hit rt)).score = s.score + 475) := by
  have hcast : ((speedBonus rt : ℤ) : ℚ) = max 0 (100 - ((rt / 10 : ℕ) : ℚ)) := by
    unfold speedBonus
    push_cast
    rfl
  constructor
  · rw [step_hit_eq _ _ _ hp]
    simp [handleHit, hitPoints, jsRound, hcast]
  · intro hb hrt hc
    rw [step_hit_eq _ _ _ hp]
    simp only [handleHit, hitPoints, jsRound, hb, hrt, hc, speedBonus]
    norm_num

/-- C1 witness: default settings, first hit at 100 ms reaction time. -/
theorem c1_witness :
    (step ttSettings (startStats ttSettings) (GameEvent.hit 100)).score
      = (startStats ttSettings).score + 475 :=
  (c1_hit_points ttSettings (startStats ttSettings) 100 rfl).2 rfl rfl rfl

/-! ### C2: effect of a miss on combo and score -/

/-- C2 counterexample: in Survival with `lives = 1` and `combo = 1`
(reachable via miss, miss, hit), the session-ending miss leaves
`combo = 1` and `score = 475` — the claim demands `combo = 0` and
`score = max 0 (475 - 50) = 425`. -/
theorem c2_counterexample :
    (runFrom svSettings [GameEvent.miss, GameEvent.miss, GameEvent.hit 100]).isPlaying = true
    ∧ (runFrom svSettings [GameEvent.miss, GameEvent.miss, GameEvent.hit 100]).score = 475
    ∧ (runFrom svSettings
        [GameEvent.miss, GameEvent.miss, GameEvent.hit 100, GameEvent.miss]).combo = 1
    ∧ (runFrom svSettings
        [GameEvent.miss, GameEvent.miss, GameEvent.hit 100, GameEvent.miss]).score = 475
    ∧ ¬((runFrom svSettings
          [GameEvent.miss, GameEvent.miss, GameEvent.hit 100, GameEvent.miss]).combo = 0
        ∧ (runFrom svSettings
            [GameEvent.miss, GameEvent.miss, GameEvent.hit 100, GameEvent.miss]).score
          = max 0 ((runFrom svSettings
              [GameEvent.miss, GameEvent.miss, GameEvent.hit 100]).score - 50)) := by
  have h475 : hitPoints svSettings 0 100 = 475 := by
    norm_num [hitPoints, jsRound, speedBonus, svSettings]
  have hscore : (runFrom svSettings
      [GameEvent.miss, GameEvent.miss, GameEvent.hit 100]).score
        = 0 + hitPoints svSettings 0 100 := rfl
  have hscore4 : (runFrom svSettings
      [GameEvent.miss, GameEvent.miss, GameEvent.hit 100, GameEvent.miss]).score
        = 0 + hitPoints svSettings 0 100 := rfl
  refine ⟨by decide, ?_, by decide, ?_, ?_⟩
  · rw [hscore, h475]; omega
  · rw [hscore4, h475]; omega
  · have h1 : (runFrom svSettings
        [GameEvent.miss, GameEvent.miss, GameEvent.hit 100, GameEvent.miss]).combo = 1 := by
      decide
    rintro ⟨hc, -⟩
    rw [h1] at hc
    exact absurd hc (by decide)

/-- C2 amended: a miss processed while Running resets the combo to 0 and
subtracts 50 points floored at 0 — except for the Survival miss that ends
the session (`lives - 1 ≤ 0`), which leaves combo and score unchanged and
sets `isPlaying := false`.  In all cases a miss never drives a
non-negative score below 0. -/
theorem c2_miss_amended (settings : SessionSettings) (s : GameStats)
    (hp : s.isPlaying = true) :
    (¬(settings.gameMode = GameMode.survival ∧ s.lives - 1 ≤ 0) →
      (step settings s GameEvent.miss).combo = 0
      ∧ (step settings s GameEvent.miss).score = max 0 (s.score - 50))
    ∧ ((settings.gameMode = GameMode.survival ∧ s.lives - 1 ≤ 0) →
      (step settings s GameEvent.miss).combo = s.combo
      ∧ (step settings s GameEvent.miss).score = s.score
      ∧ (step settings s GameEvent.miss).isPlaying = false)
    ∧ (0 ≤ s.score → 0 ≤ (step settings s GameEvent.miss).score) := by
  rw [step_miss_eq _ _ hp]
  unfold handleMiss
  by_cases hterm : settings.gameMode = GameMode.survival ∧ s.lives - 1 ≤ 0
  · rw [if_pos hterm]
    exact ⟨fun hn => absurd hterm hn, fun _ => ⟨rfl, rfl, rfl⟩, fun h => h⟩
  · rw [if_neg hterm]
    exact ⟨fun _ => ⟨rfl, rfl⟩, fun h => absurd h hterm, fun _ => le_max_left _ _⟩

/-- C2 witness: a TimeTrial miss from the fresh state. -/
theorem c2_witness :
    (step ttSettings (startStats ttSettings) GameEvent.miss).combo = 0
    ∧ (step ttSettings (startStats ttSettings) GameEvent.miss).score
        = max 0 ((startStats ttSettings).score - 50) :=
  (c2_miss_amended ttSettings (startStats ttSettings) rfl).1 (by decide)

/-! ### C3: lives -/

/-- Invariant of a Survival session: lives within `[0,3]` and at least 1
while the session is running. -/
def survivalInv (s : GameStats) : Prop :=
  0 ≤ s.lives ∧ s.lives ≤ 3 ∧ (s.isPlaying = true → 1 ≤ s.lives)

lemma survivalInv_step (settings : SessionSettings)
    (hmode : settings.gameMode = GameMode.survival)
    (s : GameStats) (e : GameEvent) (h : survivalInv s) :
    survivalInv (step settings s e) := by
  obtain ⟨h0, h3, hp1⟩ := h
  cases hsp : s.isPlaying with
  | false => rw [step_of_ended _ _ _ hsp]; exact ⟨h0, h3, hp1⟩
  | true =>
    cases e with
    | hit rt =>
        rw [step_hit_eq _ _ _ hsp]
        exact ⟨h0, h3, fun _ => hp1 hsp⟩
    | miss =>
        rw [step_miss_eq _ _ hsp]
        unfold handleMiss
        by_cases hterm : settings.gameMode = GameMode.survival ∧ s.lives - 1 ≤ 0
        · rw [if_pos hterm]
          exact ⟨le_refl 0, by norm_num, fun hq => nomatch hq⟩
        · rw [if_neg hterm]
          have hl : ¬(s.lives - 1 ≤ 0) := fun hle => hterm ⟨hmode, hle⟩
          exact ⟨show 0 ≤ s.lives - 1 by omega, show s.lives - 1 ≤ 3 by omega,
            fun _ => show 1 ≤ s.lives - 1 by omega⟩
    | tick =>
        rw [step_tick_eq _ _ hsp, hmode, if_neg (by decide)]
        exact ⟨h0, h3, hp1⟩
    | surrender =>
        rw [step_surrender_eq _ _ hsp]
        exact ⟨h0, h3, fun hq => nomatch hq⟩

/-- C3 counterexample: the claim says a TimeTrial miss leaves `lives`
unchanged and `lives` stays within `[0,3]`; in the code `handleMiss`
decrements `lives` in both modes, so one TimeTrial miss drops it to 2 and
four misses drive it to `-1`. -/
theorem c3_counterexample :
    (runFrom ttSettings [GameEvent.miss]).lives = 2
    ∧ (runFrom ttSettings
        [GameEvent.miss, GameEvent.miss, GameEvent.miss, GameEvent.miss]).lives = -1 := by
  decide

/-- C3 amended: in Survival, every reachable state has `lives ∈ [0,3]`,
`lives ≥ 1` while running and `lives = 0` only once the session has ended;
`lives` never increases under any event, and a miss from a running state
ends the session exactly when it brings `lives` to 0.  (In TimeTrial a
miss also decrements `lives` — see the counterexample — but `lives` has no
effect on termination there.) -/
theorem c3_lives_amended (settings : SessionSettings)
    (hmode : settings.gameMode = GameMode.survival) (evs : List GameEvent) :
    (0 ≤ (runFrom settings evs).lives ∧ (runFrom settings evs).lives ≤ 3)
    ∧ ((runFrom settings evs).isPlaying = true → 1 ≤ (runFrom settings evs).lives)
    ∧ ((runFrom settings evs).lives = 0 → (runFrom settings evs).isPlaying = false)
    ∧ (∀ e, (step settings (runFrom settings evs) e).lives ≤ (runFrom settings evs).lives)
    ∧ ((runFrom settings evs).isPlaying = true →
        ((step settings (runFrom settings evs) GameEvent.miss).isPlaying = false
          ↔ (step settings (runFrom settings evs) GameEvent.miss).lives = 0)) := by
  have hinv : survivalInv (runFrom settings evs) :=
    run_inv settings survivalInv (survivalInv_step settings hmode) evs _
      ⟨by norm_num [startStats], by norm_num [startStats], fun _ => by norm_num [startStats]⟩
  obtain ⟨h0, h3, hp1⟩ := hinv
  refine ⟨⟨h0, h3⟩, hp1, ?_, ?_, ?_⟩
  · intro hz
    cases hq : (runFrom settings evs).isPlaying with
    | false => rfl
    | true => exact absurd (hp1 hq) (by omega)
  · intro e
    cases hq : (runFrom settings evs).isPlaying with
    | false => rw [step_of_ended _ _ _ hq]
    | true =>
      cases e with
      | hit rt => rw [step_hit_eq _ _ _ hq]; exact le_refl _
      | miss =>
        rw [step_miss_eq _ _ hq]
        unfold handleMiss
        by_cases hterm : settings.gameMode = GameMode.survival
            ∧ (runFrom settings evs).lives - 1 ≤ 0
        · rw [if_pos hterm]; exact h0
        · rw [if_neg hterm]
          exact show (runFrom settings evs).lives - 1 ≤ (runFrom settings evs).lives by omega
      | tick => rw [step_tick_eq _ _ hq, hmode, if_neg (by decide)]
      | surrender => rw [step_surrender_eq _ _ hq]; exact le_refl _
  · intro hq
    rw [step_miss_eq _ _ hq]
    unfold handleMiss
    by_cases hterm : settings.gameMode = GameMode.survival
        ∧ (runFrom settings evs).lives - 1 ≤ 0
    · rw [if_pos hterm]
      exact ⟨fun _ => rfl, fun _ => rfl⟩
    · rw [if_neg hterm]
      constructor
      · intro hep
        exact absurd (hq.symm.trans hep) (by decide)
      · intro hl
        have hl' : (runFrom settings evs).lives - 1 = 0 := hl
        exact absurd ⟨hmode, by omega⟩ hterm

/-- C3 witness: the fresh Survival session satisfies the bounds. -/
theorem c3_witness :
    0 ≤ (runFrom svSettings []).lives ∧ (runFrom svSettings []).lives ≤ 3 :=
  (c3_lives_amended svSettings rfl []).1

/-! ### C4: TimeTrial countdown -/

/-- Invariant of a TimeTrial session: the clock is non-negative, at least
1 while running, and exactly 0 once the session has ended. -/
def timeTrialInv (s : GameStats) : Prop :=
  0 ≤ s.timeLeft ∧ (s.isPlaying = true → 1 ≤ s.timeLeft)
    ∧ (s.isPlaying = false → s.timeLeft = 0)

lemma timeTrialInv_step (settings : SessionSettings)
    (hmode : settings.gameMode = GameMode.timeTrial)
    (s : GameStats) (e : GameEvent) (h : timeTrialInv s) :
    timeTrialInv (step settings s e) := by
  obtain ⟨h0, hp1, he0⟩ := h
  cases hsp : s.isPlaying with
  | false => rw [step_of_ended _ _ _ hsp]; exact ⟨h0, hp1, he0⟩
  | true =>
    cases e with
    | hit rt =>
        rw [step_hit_eq _ _ _ hsp]
        exact ⟨h0, fun _ => hp1 hsp, fun hq => absurd (hsp.symm.trans hq) (by decide)⟩
    | miss =>
        rw [step_miss_eq _ _ hsp]
        unfold handleMiss
        rw [if_neg (fun hterm => by rw [hmode] at hterm; exact nomatch hterm.1)]
        exact ⟨h0, fun _ => hp1 hsp, fun hq => absurd (hsp.symm.trans hq) (by decide)⟩
    | tick =>
        rw [step_tick_eq _ _ hsp, hmode, if_pos rfl]
        unfold tickTimer
        by_cases hle : s.timeLeft ≤ 1
        · rw [if_pos hle]
          refine ⟨le_refl 0, fun hq => ?_, fun _ => rfl⟩
          exact nomatch hq
        · rw [if_neg hle]
          exact ⟨show 0 ≤ s.timeLeft - 1 by omega, fun _ => show 1 ≤ s.timeLeft - 1 by omega,
            fun hq => absurd (hsp.symm.trans hq) (by decide)⟩
    | surrender =>
        rw [step_surrender_eq _ _ hsp]
        refine ⟨le_refl 0, fun hq => ?_, fun _ => rfl⟩
        exact nomatch hq

/-- C4: in a TimeTrial session started from a validated duration
(`duration ≥ 1`), every reachable state has `timeLeft ≥ 0`, `timeLeft ≥ 1`
while running and `timeLeft = 0` once ended; a tick from a running state
decrements `timeLeft` by exactly 1, and the tick ends the session exactly
when the clock it produces is 0. -/
theorem c4_timeTrial_tick (settings : SessionSettings)
    (hmode : settings.gameMode = GameMode.timeTrial) (hdur : 1 ≤ settings.duration)
    (evs : List GameEvent) :
    0 ≤ (runFrom settings evs).timeLeft
    ∧ ((runFrom settings evs).isPlaying = true → 1 ≤ (runFrom settings evs).timeLeft)
    ∧ ((runFrom settings evs).isPlaying = false → (runFrom settings evs).timeLeft = 0)
    ∧ ((runFrom settings evs).isPlaying = true →
        (step settings (runFrom settings evs) GameEvent.tick).timeLeft
          = (runFrom settings evs).timeLeft - 1)
    ∧ ((runFrom settings evs).isPlaying = true →
        ((step settings (runFrom settings evs) GameEvent.tick).isPlaying = false
          ↔ (step settings (runFrom settings evs) GameEvent.tick).timeLeft = 0)) := by
  have hinv : timeTrialInv (runFrom settings evs) :=
    run_inv settings timeTrialInv (timeTrialInv_step settings hmode) evs _
      ⟨by simpa [startStats] using le_trans zero_le_one hdur,
       fun _ => by simpa [startStats] using hdur,
       fun hq => nomatch hq⟩
  obtain ⟨h0, hp1, he0⟩ := hinv
  refine ⟨h0, hp1, he0, ?_, ?_⟩
  · intro hq
    rw [step_tick_eq _ _ hq, hmode, if_pos rfl]
    unfold tickTimer
    by_cases hle : (runFrom settings evs).timeLeft ≤ 1
    · rw [if_pos hle]
      have h1 := hp1 hq
      show (0 : ℤ) = (runFrom settings evs).timeLeft - 1
      omega
    · rw [if_neg hle]
  · intro hq
    rw [step_tick_eq _ _ hq, hmode, if_pos rfl]
    unfold tickTimer
    by_cases hle : (runFrom settings evs).timeLeft ≤ 1
    · rw [if_pos hle]
      exact ⟨fun _ => rfl, fun _ => rfl⟩
    · rw [if_neg hle]
      constructor
      · intro hep
        exact absurd (hq.symm.trans hep) (by decide)
      · intro hl
        have hl' : (runFrom settings evs).timeLeft - 1 = 0 := hl
        exact absurd hl' (by omega)

/-- C4 witness: a tick in the fresh default TimeTrial session. -/
theorem c4_witness :
    (runFrom ttSettings []).isPlaying = true
    ∧ (step ttSettings (runFrom ttSettings []) GameEvent.tick).timeLeft
        = (runFrom ttSettings []).timeLeft - 1 :=
  ⟨rfl, (c4_timeTrial_tick ttSettings rfl (by decide) []).2.2.2.1 rfl⟩

/-! ### C5: combo increments and Survival level -/

lemma handleHit_combo (settings : SessionSettings) (rt : ℕ) (s : GameStats) :
    (handleHit settings rt s).combo = s.combo + 1 := rfl

lemma handleHit_level (settings : SessionSettings) (rt : ℕ) (s : GameStats) :
    (handleHit settings rt s).level
      = if settings.gameMode = GameMode.survival ∧ (s.combo + 1) % 10 = 0 then s.level + 1
        else s.level := rfl

lemma handleHit_maxCombo (settings : SessionSettings) (rt : ℕ) (s : GameStats) :
    (handleHit settings rt s).maxCombo = max s.maxCombo (s.combo + 1) := rfl

lemma handleHit_isPlaying (settings : SessionSettings) (rt : ℕ) (s : GameStats) :
    (handleHit settings rt s).isPlaying = s.isPlaying := rfl

lemma runFrom_append (settings : SessionSettings) (l₁ l₂ : List GameEvent) :
    runFrom settings (l₁ ++ l₂) = run settings (runFrom settings l₁) l₂ :=
  run_append settings (startStats settings) l₁ l₂

/-- After `n` consecutive hits from a fresh Survival session the combo is
`n`, the level is `1 + n / 10`, and the session is still running. -/
lemma run_hits_survival (settings : SessionSettings)
    (hmode : settings.gameMode = GameMode.survival) (rt : ℕ) :
    ∀ n : ℕ, (runFrom settings (List.replicate n (GameEvent.hit rt))).combo = n
      ∧ (runFrom settings (List.replicate n (GameEvent.hit rt))).level = 1 + n / 10
      ∧ (runFrom settings (List.replicate n (GameEvent.hit rt))).isPlaying = true := by
  intro n
  induction n with
  | zero => exact ⟨rfl, rfl, rfl⟩
  | succ n ih =>
    obtain ⟨hc, hl, hp⟩ := ih
    have e1 : runFrom settings (List.replicate (n + 1) (GameEvent.hit rt))
        = step settings (runFrom settings (List.replicate n (GameEvent.hit rt)))
            (GameEvent.hit rt) := by
      rw [List.replicate_succ']
      rw [runFrom_append]
      rfl
    rw [e1, step_hit_eq _ _ _ hp, handleHit_combo, handleHit_level, handleHit_isPlaying]
    refine ⟨by rw [hc], ?_, hp⟩
    rw [hc, hl]
    by_cases h10 : (n + 1) % 10 = 0
    · rw [if_pos ⟨hmode, h10⟩]; omega
    · rw [if_neg fun hx => h10 hx.2]; omega

/-- C5: a hit from a running state increments the combo by exactly 1; in
Survival the level rises by 1 exactly when the new combo is a multiple of
10, the level never decreases under any event, and 10 straight hits from
a fresh Survival session give combo `n` and level `1 + n/10` (so level 2
exactly at the 10th hit, never earlier). -/
theorem c5_combo_level (settings : SessionSettings) (s : GameStats) (rt : ℕ) (n : ℕ)
    (hp : s.isPlaying = true) :
    (step settings s (GameEvent.hit rt)).combo = s.combo + 1
    ∧ (settings.gameMode = GameMode.survival →
        (step settings s (GameEvent.hit rt)).level
          = if (s.combo + 1) % 10 = 0 then s.level + 1 else s.level)
    ∧ (∀ e, s.level ≤ (step settings s e).level)
    ∧ (settings.gameMode = GameMode.survival →
        (runFrom settings (List.replicate n (GameEvent.hit rt))).combo = n
        ∧ (runFrom settings (List.replicate n (GameEvent.hit rt))).level = 1 + n / 10) := by
  refine ⟨?_, ?_, ?_, ?_⟩
  · rw [step_hit_eq _ _ _ hp, handleHit_combo]
  · intro hmode
    rw [step_hit_eq _ _ _ hp, handleHit_level]
    simp [hmode]
  · intro e
    cases e with
    | hit rt2 =>
      rw [step_hit_eq _ _ _ hp, handleHit_level]
      by_cases hcond : settings.gameMode = GameMode.survival ∧ (s.combo + 1) % 10 = 0
      · rw [if_pos hcond]; omega
      · rw [if_neg hcond]
    | miss =>
      rw [step_miss_eq _ _ hp]
      unfold handleMiss
      by_cases hterm : settings.gameMode = GameMode.survival ∧ s.lives - 1 ≤ 0
      · rw [if_pos hterm]
      · rw [if_neg hterm]
    | tick =>
      rw [step_tick_eq _ _ hp]
      by_cases hmode : settings.gameMode = GameMode.timeTrial
      · rw [if_pos hmode]
        unfold tickTimer
        by_cases hle : s.timeLeft ≤ 1
        · rw [if_pos hle]
        · rw [if_neg hle]
      · rw [if_neg hmode]
    | surrender => rw [step_surrender_eq _ _ hp]; exact le_refl _
  · intro hmode
    exact ⟨(run_hits_survival settings hmode rt n).1,
      (run_hits_survival settings hmode rt n).2.1⟩

/-- C5 witness: 10 straight Survival hits reach combo 10 and level 2. -/
theorem c5_witness :
    (runFrom svSettings (List.replicate 10 (GameEvent.hit 100))).combo = 10
    ∧ (runFrom svSettings (List.replicate 10 (GameEvent.hit 100))).level = 2 :=
  (c5_combo_level svSettings (startStats svSettings) 100 10 rfl).2.2.2 rfl

/-! ### C10: maxCombo -/

/-- The combo values observed after each event of a run. -/
def comboTrace (settings : SessionSettings) : GameStats → List GameEvent → List ℕ
  | _, [] => []
  | s, e :: es => (step settings s e).combo :: comboTrace settings (step settings s e) es

lemma step_maxCombo (settings : SessionSettings) (s : GameStats) (e : GameEvent)
    (h : s.combo ≤ s.maxCombo) :
    (step settings s e).maxCombo = max s.maxCombo (step settings s e).combo
    ∧ (step settings s e).combo ≤ (step settings s e).maxCombo := by
  suffices hsuf : (step settings s e).maxCombo = max s.maxCombo (step settings s e).combo by
    exact ⟨hsuf, hsuf ▸ le_max_right _ _⟩
  cases hq : s.isPlaying with
  | false => rw [step_of_ended _ _ _ hq]; exact (max_eq_left h).symm
  | true =>
    cases e with
    | hit rt => rw [step_hit_eq _ _ _ hq, handleHit_maxCombo, handleHit_combo]
    | miss =>
      rw [step_miss_eq _ _ hq]
      unfold handleMiss
      by_cases hterm : settings.gameMode = GameMode.survival ∧ s.lives - 1 ≤ 0
      · rw [if_pos hterm]; exact (max_eq_left h).symm
      · rw [if_neg hterm]; exact (max_eq_left (Nat.zero_le _)).symm
    | tick =>
      rw [step_tick_eq _ _ hq]
      by_cases hmode : settings.gameMode = GameMode.timeTrial
      · rw [if_pos hmode]
        unfold tickTimer
        by_cases hle : s.timeLeft ≤ 1
        · rw [if_pos hle]; exact (max_eq_left h).symm
        · rw [if_neg hle]; exact (max_eq_left h).symm
      · rw [if_neg hmode]; exact (max_eq_left h).symm
    | surrender => rw [step_surrender_eq _ _ hq]; exact (max_eq_left h).symm

lemma run_maxCombo (settings : SessionSettings) :
    ∀ (evs : List GameEvent) (s : GameStats), s.combo ≤ s.maxCombo →
      (run settings s evs).maxCombo = List.foldl max s.maxCombo (comboTrace settings s evs)
      ∧ (run settings s evs).combo ≤ (run settings s evs).maxCombo
  | [], _, h => ⟨rfl, h⟩
  | e :: es, s, h => by
    obtain ⟨h1, h2⟩ := step_maxCombo settings s e h
    obtain ⟨ih1, ih2⟩ := run_maxCombo settings es (step settings s e) h2
    refine ⟨?_, ih2⟩
    show (run settings (step settings s e) es).maxCombo
      = List.foldl max s.maxCombo
          ((step settings s e).combo :: comboTrace settings (step settings s e) es)
    rw [List.foldl_cons, ih1, h1]

/-- C10 counterexample: the claim says every miss resets the combo to 0;
the Survival miss that ends the session (state reachable by miss, miss,
hit) leaves the combo at 1. -/
theorem c10_counterexample :
    (runFrom svSettings [GameEvent.miss, GameEvent.miss, GameEvent.hit 100]).isPlaying = true
    ∧ (step svSettings
        (runFrom svSettings [GameEvent.miss, GameEvent.miss, GameEvent.hit 100])
        GameEvent.miss).combo ≠ 0 := by
  refine ⟨by decide, by decide⟩

/-- C10 amended: `maxCombo` starts at 0, always dominates `combo`, never
decreases, is updated to `max maxCombo (combo+1)` by each hit; every
non-terminating miss resets `combo` to 0 leaving `maxCombo` unchanged
(the session-ending Survival miss leaves both unchanged — see the
counterexample); and `maxCombo` equals the largest combo value observed
along the session. -/
theorem c10_maxCombo (settings : SessionSettings) (evs : List GameEvent) :
    (startStats settings).maxCombo = 0
    ∧ (runFrom settings evs).combo ≤ (runFrom settings evs).maxCombo
    ∧ (∀ e, (runFrom settings evs).maxCombo ≤ (step settings (runFrom settings evs) e).maxCombo)
    ∧ (∀ rt, (runFrom settings evs).isPlaying = true →
        (step settings (runFrom settings evs) (GameEvent.hit rt)).maxCombo
          = max (runFrom settings evs).maxCombo ((runFrom settings evs).combo + 1))
    ∧ ((runFrom settings evs).isPlaying = true →
        ¬(settings.gameMode = GameMode.survival ∧ (runFrom settings evs).lives - 1 ≤ 0) →
        (step settings (runFrom settings evs) GameEvent.miss).combo = 0
        ∧ (step settings (runFrom settings evs) GameEvent.miss).maxCombo
            = (runFrom settings evs).maxCombo)
    ∧ (runFrom settings evs).maxCombo
        = List.foldl max 0 (comboTrace settings (startStats settings) evs) := by
  obtain ⟨hfold, hinv⟩ := run_maxCombo settings evs (startStats settings) (le_refl 0)
  refine ⟨rfl, hinv, ?_, ?_, ?_, hfold⟩
  · intro e
    obtain ⟨h1, -⟩ := step_maxCombo settings (runFrom settings evs) e hinv
    rw [h1]
    exact le_max_left _ _
  · intro rt hq
    rw [step_hit_eq _ _ _ hq, handleHit_maxCombo]
  · intro hq hterm
    rw [step_miss_eq _ _ hq]
    unfold handleMiss
    rw [if_neg hterm]
    exact ⟨rfl, rfl⟩

/-- C10 witness: two hits from a fresh Survival session. -/
theorem c10_witness :
    (runFrom svSettings [GameEvent.hit 100, GameEvent.hit 120]).combo
      ≤ (runFrom svSettings [GameEvent.hit 100, GameEvent.hit 120]).maxCombo :=
  (c10_maxCombo svSettings [GameEvent.hit 100, GameEvent.hit 120]).2.1

/-! ### C6: score persistence on session end -/

/-- The guard of the save-score effect (App.tsx:373-374):
`!gameStats.isPlaying && gameStats.hits > 0`. -/
def savesRecord (s : GameStats) : Bool := !s.isPlaying && decide (0 < s.hits)

/-- The accuracy stored in the persisted record (App.tsx:375-377):
`hits + misses > 0 ? hits/(hits+misses)*100 : 0`. -/
def recordedAccuracy (hits misses : ℕ) : ℚ :=
  if 0 < hits + misses then ((hits : ℚ) / ((hits : ℚ) + (misses : ℚ))) * 100 else 0

/-- The accuracy shown in the HUD and report (App.tsx:541-543):
`hits + misses === 0 ? 100 : hits/(hits+misses)*100`. -/
def accuracyDisplay (hits misses : ℕ) : ℚ :=
  if hits + misses = 0 then 100 else ((hits : ℚ) / ((hits : ℚ) + (misses : ℚ))) * 100

/-- C6 counterexample: a Survival session ending with 0 hits and 3 misses
(three straight misses) has seen "at least one hit or miss", yet the save
guard `hits > 0` rejects it — no ScoreRecord is persisted. -/
theorem c6_counterexample :
    (runFrom svSettings [GameEvent.miss, GameEvent.miss, GameEvent.miss]).isPlaying = false
    ∧ (runFrom svSettings [GameEvent.miss, GameEvent.miss, GameEvent.miss]).hits = 0
    ∧ (runFrom svSettings [GameEvent.miss, GameEvent.miss, GameEvent.miss]).misses = 3
    ∧ savesRecord (runFrom svSettings [GameEvent.miss, GameEvent.miss, GameEvent.miss])
        = false := by
  decide

/-- C6 amended: a ScoreRecord is persisted on entering Ended if and only
if at least one **hit** occurred (`hits > 0`; a session with only misses
persists nothing); when any click occurred the recorded accuracy is
`hits/(hits+misses)*100`.  The value 100 for `hits+misses = 0` belongs to
the displayed accuracy, not to the persisted one (which that branch sets
to 0, and which is unreachable when a record is persisted). -/
theorem c6_persist_amended (s : GameStats) :
    (savesRecord s = true ↔ (s.isPlaying = false ∧ 0 < s.hits))
    ∧ (0 < s.hits + s.misses →
        recordedAccuracy s.hits s.misses
          = ((s.hits : ℚ) / ((s.hits : ℚ) + (s.misses : ℚ))) * 100)
    ∧ accuracyDisplay 0 0 = 100 := by
  refine ⟨?_, ?_, by norm_num [accuracyDisplay]⟩
  · simp [savesRecord]
  · intro hpos
    rw [recordedAccuracy, if_pos hpos]

/-- C6 witness: the zero-click accuracy display is 100. -/
theorem c6_witness : accuracyDisplay 0 0 = 100 :=
  (c6_persist_amended (startStats ttSettings)).2.2

/-! ### C7: spawn position and size -/

/-- A play-area rectangle (`boardRect` in App.tsx). -/
structure Rect where
  x : ℚ
  y : ℚ
  width : ℚ
  height : ℚ
deriving DecidableEq

/-- A live target. -/
structure Target where
  x : ℚ
  y : ℚ
  size : ℚ
deriving DecidableEq

/-- The effective bubble size (App.tsx:230-235): `settings.bubbleSize`,
shrunk in Survival to `max 30 (bubbleSize - level*2)`. -/
def bubbleSizeFor (settings : SessionSettings) (level : ℕ) : ℚ :=
  if settings.gameMode = GameMode.survival then
    max 30 (settings.bubbleSize - (level : ℚ) * 2)
  else settings.bubbleSize

/-- `spawnBubble` (App.tsx:225-247) with the two `Math.random()` draws
`rx, ry ∈ [0,1)` passed explicitly:
`randomX = Math.max(bx, rx * (maxX - bx) + bx)` with
`maxX = bx + width - size`, and likewise for y. -/
def spawnBubble (area : Rect) (settings : SessionSettings) (level : ℕ) (rx ry : ℚ) : Target :=
  { x := max area.x (rx * ((area.x + area.width - bubbleSizeFor settings level) - area.x)
      + area.x),
    y := max area.y (ry * ((area.y + area.height - bubbleSizeFor settings level) - area.y)
      + area.y),
    size := bubbleSizeFor settings level }

/-- One axis of the spawn position: inside `[b, b+w-size]` when the
target fits, clamped to `b` when it does not. -/
lemma spawnCoord_bounds (b w size r : ℚ) (h0 : 0 ≤ r) (h1 : r < 1) :
    (b ≤ b + w - size → b ≤ max b (r * ((b + w - size) - b) + b)
      ∧ max b (r * ((b + w - size) - b) + b) ≤ b + w - size)
    ∧ (b + w - size < b → max b (r * ((b + w - size) - b) + b) = b) := by
  constructor
  · intro hfit
    have hd : 0 ≤ (b + w - size) - b := by linarith
    have hub : r * ((b + w - size) - b) ≤ (b + w - size) - b :=
      mul_le_of_le_one_left hd (le_of_lt h1)
    exact ⟨le_max_left _ _, max_le (by linarith) (by linarith)⟩
  · intro hlt
    have hd : (b + w - size) - b ≤ 0 := by linarith
    have hub : r * ((b + w - size) - b) ≤ 0 := by nlinarith
    exact max_eq_left (by linarith)

/-- C7: for every area, settings, level and random draws in `[0,1)`, the
spawned target has the documented effective size, its position lies in
`[area.x, area.x + area.width - size]` (resp. y) whenever the target fits
on that axis, and is clamped to `area.x` (resp. `area.y`) when it does
not. -/
theorem c7_spawn (area : Rect) (settings : SessionSettings) (level : ℕ) (rx ry : ℚ)
    (hx0 : 0 ≤ rx) (hx1 : rx < 1) (hy0 : 0 ≤ ry) (hy1 : ry < 1) :
    (spawnBubble area settings level rx ry).size
      = (if settings.gameMode = GameMode.survival
          then max 30 (settings.bubbleSize - (level : ℚ) * 2) else settings.bubbleSize)
    ∧ (area.x ≤ area.x + area.width - (spawnBubble area settings level rx ry).size →
        area.x ≤ (spawnBubble area settings level rx ry).x
        ∧ (spawnBubble area settings level rx ry).x
            ≤ area.x + area.width - (spawnBubble area settings level rx ry).size)
    ∧ (area.x + area.width - (spawnBubble area settings level rx ry).size < area.x →
        (spawnBubble area settings level rx ry).x = area.x)
    ∧ (area.y ≤ area.y + area.height - (spawnBubble area settings level rx ry).size →
        area.y ≤ (spawnBubble area settings level rx ry).y
        ∧ (spawnBubble area settings level rx ry).y
            ≤ area.y + area.height - (spawnBubble area settings level rx ry).size)
    ∧ (area.y + area.height - (spawnBubble area settings level rx ry).size < area.y →
        (spawnBubble area settings level rx ry).y = area.y) :=
  ⟨rfl,
    (spawnCoord_bounds area.x area.width (bubbleSizeFor settings level) rx hx0 hx1).1,
    (spawnCoord_bounds area.x area.width (bubbleSizeFor settings level) rx hx0 hx1).2,
    (spawnCoord_bounds area.y area.height (bubbleSizeFor settings level) ry hy0 hy1).1,
    (spawnCoord_bounds area.y area.height (bubbleSizeFor settings level) ry hy0 hy1).2⟩

/-- An 800×600 board at the origin, used for concrete evaluations. -/
def demoArea : Rect := { x := 0, y := 0, width := 800, height := 600 }

/-- C7 witness: a concrete spawn with both draws at 1/2 lands inside the
default board. -/
theorem c7_witness :
    demoArea.x ≤ (spawnBubble demoArea ttSettings 1 (1/2) (1/2)).x
    ∧ (spawnBubble demoArea ttSettings 1 (1/2) (1/2)).x
        ≤ demoArea.x + demoArea.width - (spawnBubble demoArea ttSettings 1 (1/2) (1/2)).size :=
  (c7_spawn demoArea ttSettings 1 (1/2) (1/2) (by norm_num) (by norm_num)
      (by norm_num) (by norm_num)).2.1
    (by
      have hsize : (spawnBubble demoArea ttSettings 1 (1/2) (1/2)).size = 60 := rfl
      rw [hsize]
      norm_num [demoArea])

/-! ### C9: timer callbacks after the session has ended -/

/-- The engine-visible state touched by the Survival expiry poll:
the stats, the live target position and its spawn instant. -/
structure AppState where
  stats : GameStats
  bubblePos : Option (ℚ × ℚ)
  bubbleSpawnTime : ℤ

/-- The body of the Survival expiry interval (App.tsx:317-327): when the
live target is older than `max 600 (3000 - level*150)` ms it calls
`handleMiss()` and then, unconditionally, `spawnBubble()` — there is no
`isPlaying` check anywhere in the body. -/
def expiryPollBody (settings : SessionSettings) (area : Rect) (now : ℤ) (rx ry : ℚ)
    (app : AppState) : AppState :=
  match app.bubblePos with
  | none => app
  | some _ =>
    if max 600 (3000 - (app.stats.level : ℤ) * 150) < now - app.bubbleSpawnTime then
      { stats := handleMiss settings app.stats,
        bubblePos := some ((spawnBubble area settings app.stats.level rx ry).x,
          (spawnBubble area settings app.stats.level rx ry).y),
        bubbleSpawnTime := now }
    else app

/-- A running Survival session on its last life, with a target spawned at
t = 0 and the poll firing at t = 4000 (lifespan at level 1 is 2850 ms). -/
def c9Stats : GameStats :=
  { score := 0, combo := 0, maxCombo := 0, hits := 0, misses := 2, timeLeft := 60,
    lives := 1, level := 1, isPlaying := true }

def c9App : AppState :=
  { stats := c9Stats, bubblePos := some (100, 100), bubbleSpawnTime := 0 }

/-- C9: evaluation of the expiry-poll body at the failing input — the
expiry-induced miss ends the session (`isPlaying = false`, `lives = 0`),
yet the very same callback still spawns a fresh target into the Ended
state, because `spawnBubble()` is called unconditionally after
`handleMiss()` and no timer body re-checks `isPlaying` at fire time. -/
theorem c9_expiry_spawns_after_end :
    (expiryPollBody svSettings demoArea 4000 (1/2) (1/2) c9App).stats.isPlaying = false
    ∧ (expiryPollBody svSettings demoArea 4000 (1/2) (1/2) c9App).stats.lives = 0
    ∧ (expiryPollBody svSettings demoArea 4000 (1/2) (1/2) c9App).stats.misses = 3
    ∧ (expiryPollBody svSettings demoArea 4000 (1/2) (1/2) c9App).bubblePos.isSome = true := by
  decide

/-! ### C8: settings validation (`validateSettings` in
`src/services/storageService.ts`) -/

/-- `ScreenMode` from `src/types.ts`. -/
inductive ScreenMode
  | full
  | board
  | compact
deriving DecidableEq

/-- `Difficulty` from `src/types.ts`. -/
inductive Difficulty
  | easy
  | normal
  | hard
  | custom
deriving DecidableEq

/-- `CrosshairType` from `src/types.ts`. -/
inductive CrosshairType
  | dot
  | cross
  | circle
  | plus
deriving DecidableEq

/-- A JavaScript number as far as `safeNum` can observe it: finite,
`NaN`, or an infinity. -/
inductive JsNum
  | fin (q : ℚ)
  | nan
  | posInf
  | negInf
deriving DecidableEq

/-- An untrusted JavaScript value in a parsed settings object. -/
inductive JsVal
  | num (n : JsNum)
  | str (s : String)
  | boolV (b : Bool)
  | other
deriving DecidableEq

/-- The ten fields `validateSettings` reads off the untrusted object. -/
structure RawSettings where
  gameMode : JsVal
  screenMode : JsVal
  difficulty : JsVal
  bubbleSize : JsVal
  spawnDelay : JsVal
  duration : JsVal
  soundEnabled : JsVal
  sensitivity : JsVal
  crosshairType : JsVal
  crosshairColor : JsVal

/-- The untrusted input: either not an object at all (`!data ||
typeof data !== 'object'`) or a bag of fields. -/
inductive RawInput
  | notObject
  | obj (fields : RawSettings)

/-- The full validated `GameSettings` record from `src/types.ts`. -/
structure GameSettings where
  gameMode : GameMode
  screenMode : ScreenMode
  difficulty : Difficulty
  bubbleSize : ℚ
  spawnDelay : ℚ
  duration : ℚ
  soundEnabled : Bool
  sensitivity : ℚ
  crosshairType : CrosshairType
  crosshairColor : String
deriving DecidableEq

/-- Enum string values of `GameMode` (`src/types.ts`). -/
def gameModeVal : GameMode → String
  | GameMode.timeTrial => "Contrarreloj"
  | GameMode.survival => "Supervivencia"

/-- Enum string values of `ScreenMode` (`src/types.ts`). -/
def screenModeVal : ScreenMode → String
  | ScreenMode.full => "Pantalla Completa"
  | ScreenMode.board => "Pizarra (Estándar)"
  | ScreenMode.compact => "Compacto"

/-- Enum string values of `Difficulty` (`src/types.ts`). -/
def difficultyVal : Difficulty → String
  | Difficulty.easy => "Easy"
  | Difficulty.normal => "Normal"
  | Difficulty.hard => "Hard"
  | Difficulty.custom => "Custom"

/-- The literal union values of `CrosshairType` (`src/types.ts`). -/
def crosshairTypeVal : CrosshairType → String
  | CrosshairType.dot => "dot"
  | CrosshairType.cross => "cross"
  | CrosshairType.circle => "circle"
  | CrosshairType.plus => "plus"

/-- `safeEnum` instantiated at `GameMode`:
`Object.values(GameMode).includes(val) ? val : defaultVal`. -/
def safeGameMode (v : JsVal) (d : GameMode) : GameMode :=
  match v with
  | JsVal.str s =>
      if s = gameModeVal GameMode.timeTrial then GameMode.timeTrial
      else if s = gameModeVal GameMode.survival then GameMode.survival
      else d
  | _ => d

/-- `safeEnum` instantiated at `ScreenMode`. -/
def safeScreenMode (v : JsVal) (d : ScreenMode) : ScreenMode :=
  match v with
  | JsVal.str s =>
      if s = screenModeVal ScreenMode.full then ScreenMode.full
      else if s = screenModeVal ScreenMode.board then ScreenMode.board
      else if s = screenModeVal ScreenMode.compact then ScreenMode.compact
      else d
  | _ => d

/-- `safeEnum` instantiated at `Difficulty`. -/
def safeDifficulty (v : JsVal) (d : Difficulty) : Difficulty :=
  match v with
  | JsVal.str s =>
      if s = difficultyVal Difficulty.easy then Difficulty.easy
      else if s = difficultyVal Difficulty.normal then Difficulty.normal
      else if s = difficultyVal Difficulty.hard then Difficulty.hard
      else if s = difficultyVal Difficulty.custom then Difficulty.custom
      else d
  | _ => d

/-- `['dot','cross','circle','plus'].includes(data.crosshairType)`. -/
def safeCrosshairType (v : JsVal) (d : CrosshairType) : CrosshairType :=
  match v with
  | JsVal.str s =>
      if s = crosshairTypeVal CrosshairType.dot then CrosshairType.dot
      else if s = crosshairTypeVal CrosshairType.cross then CrosshairType.cross
      else if s = crosshairTypeVal CrosshairType.circle then CrosshairType.circle
      else if s = crosshairTypeVal CrosshairType.plus then CrosshairType.plus
      else d
  | _ => d

/-- `safeNum` (storageService.ts:31-34): non-numbers and `NaN` become the
default, otherwise `Math.max(min, Math.min(max, val))`; the infinities
clamp to the respective bound. -/
def safeNum (v : JsVal) (lo hi d : ℚ) : ℚ :=
  match v with
  | JsVal.num (JsNum.fin q) => max lo (min hi q)
  | JsVal.num JsNum.nan => d
  | JsVal.num JsNum.posInf => max lo hi
  | JsVal.num JsNum.negInf => lo
  | _ => d

/-- `typeof data.soundEnabled === 'boolean' ? data.soundEnabled : default`. -/
def safeBool (v : JsVal) (d : Bool) : Bool :=
  match v with
  | JsVal.boolV b => b
  | _ => d

/-- `crosshairColor.startsWith('#')`: the first character is `'#'`. -/
def startsWithHash (s : String) : Bool :=
  match s.data with
  | [] => false
  | c :: _ => c == '#'

/-- The crosshair-colour check (storageService.ts:46-48):
a string starting with `'#'` of length at most 7 passes, anything else is
replaced by the default. -/
def safeColor (v : JsVal) (d : String) : String :=
  match v with
  | JsVal.str s => if startsWithHash s = true ∧ s.length ≤ 7 then s else d
  | _ => d

/-- `DEFAULT_SETTINGS` (storageService.ts:8-19). -/
def DEFAULT_SETTINGS : GameSettings :=
  { gameMode := GameMode.timeTrial
    screenMode := ScreenMode.board
    difficulty := Difficulty.normal
    bubbleSize := 60
    spawnDelay := 200
    duration := 60
    soundEnabled := true
    sensitivity := 1
    crosshairType := CrosshairType.dot
    crosshairColor := "#6366f1" }

/-- `validateSettings` (storageService.ts:22-50). -/
def validateSettings : RawInput → GameSettings
  | RawInput.notObject => DEFAULT_SETTINGS
  | RawInput.obj d =>
    { gameMode := safeGameMode d.gameMode DEFAULT_SETTINGS.gameMode
      screenMode := safeScreenMode d.screenMode DEFAULT_SETTINGS.screenMode
      difficulty := safeDifficulty d.difficulty DEFAULT_SETTINGS.difficulty
      bubbleSize := safeNum d.bubbleSize 10 300 DEFAULT_SETTINGS.bubbleSize
      spawnDelay := safeNum d.spawnDelay 0 5000 DEFAULT_SETTINGS.spawnDelay
      duration := safeNum d.duration 5 3600 DEFAULT_SETTINGS.duration
      soundEnabled := safeBool d.soundEnabled DEFAULT_SETTINGS.soundEnabled
      sensitivity := safeNum d.sensitivity (1/10) 10 DEFAULT_SETTINGS.sensitivity
      crosshairType := safeCrosshairType d.crosshairType DEFAULT_SETTINGS.crosshairType
      crosshairColor := safeColor d.crosshairColor DEFAULT_SETTINGS.crosshairColor }

/-- Re-inject a validated `GameSettings` as an untrusted object, the way
`JSON.parse(JSON.stringify(settings))` presents it back to the validator. -/
def toRaw (s : GameSettings) : RawInput :=
  RawInput.obj
    { gameMode := JsVal.str (gameModeVal s.gameMode)
      screenMode := JsVal.str (screenModeVal s.screenMode)
      difficulty := JsVal.str (difficultyVal s.difficulty)
      bubbleSize := JsVal.num (JsNum.fin s.bubbleSize)
      spawnDelay := JsVal.num (JsNum.fin s.spawnDelay)
      duration := JsVal.num (JsNum.fin s.duration)
      soundEnabled := JsVal.boolV s.soundEnabled
      sensitivity := JsVal.num (JsNum.fin s.sensitivity)
      crosshairType := JsVal.str (crosshairTypeVal s.crosshairType)
      crosshairColor := JsVal.str s.crosshairColor }

/-- A colour value that passes the validator's own check. -/
def colorOk (c : String) : Prop := startsWithHash c = true ∧ c.length ≤ 7

lemma default_colorOk : colorOk "#6366f1" := by
  constructor
  · decide
  · decide

lemma safeNum_range (v : JsVal) (lo hi d : ℚ) (hlh : lo ≤ hi) (hd1 : lo ≤ d) (hd2 : d ≤ hi) :
    lo ≤ safeNum v lo hi d ∧ safeNum v lo hi d ≤ hi := by
  cases v with
  | num n =>
    cases n with
    | fin q => exact ⟨le_max_left _ _, max_le hlh (min_le_left _ _)⟩
    | nan => exact ⟨hd1, hd2⟩
    | posInf => exact ⟨le_max_left _ _, max_le hlh (le_refl _)⟩
    | negInf => exact ⟨le_refl _, hlh⟩
  | str s => exact ⟨hd1, hd2⟩
  | boolV b => exact ⟨hd1, hd2⟩
  | other => exact ⟨hd1, hd2⟩

lemma safeNum_fixed (q lo hi d : ℚ) (h1 : lo ≤ q) (h2 : q ≤ hi) :
    safeNum (JsVal.num (JsNum.fin q)) lo hi d = q := by
  show max lo (min hi q) = q
  rw [min_eq_right h2, max_eq_right h1]

lemma safeGameMode_fixed (m d : GameMode) : safeGameMode (JsVal.str (gameModeVal m)) d = m := by
  cases m <;> rfl

lemma safeScreenMode_fixed (m d : ScreenMode) :
    safeScreenMode (JsVal.str (screenModeVal m)) d = m := by
  cases m <;> rfl

lemma safeDifficulty_fixed (m d : Difficulty) :
    safeDifficulty (JsVal.str (difficultyVal m)) d = m := by
  cases m <;> rfl

lemma safeCrosshairType_fixed (m d : CrosshairType) :
    safeCrosshairType (JsVal.str (crosshairTypeVal m)) d = m := by
  cases m <;> rfl

lemma safeColor_fixed (c d : String) (h : colorOk c) : safeColor (JsVal.str c) d = c := by
  obtain ⟨h1, h2⟩ := h
  show (if startsWithHash c = true ∧ c.length ≤ 7 then c else d) = c
  rw [if_pos ⟨h1, h2⟩]

lemma safeColor_ok (v : JsVal) (d : String) (hd : colorOk d) : colorOk (safeColor v d) := by
  cases v with
  | str s =>
    show colorOk (if startsWithHash s = true ∧ s.length ≤ 7 then s else d)
    by_cases h : startsWithHash s = true ∧ s.length ≤ 7
    · rw [if_pos h]; exact h
    · rw [if_neg h]; exact hd
  | num n => exact hd
  | boolV b => exact hd
  | other => exact hd

/-- The ranges the claim demands, plus the colour well-formedness needed
for idempotence. -/
def settingsOk (s : GameSettings) : Prop :=
  (10 ≤ s.bubbleSize ∧ s.bubbleSize ≤ 300)
  ∧ (0 ≤ s.spawnDelay ∧ s.spawnDelay ≤ 5000)
  ∧ (5 ≤ s.duration ∧ s.duration ≤ 3600)
  ∧ (1/10 ≤ s.sensitivity ∧ s.sensitivity ≤ 10)
  ∧ colorOk s.crosshairColor

lemma validate_ok (raw : RawInput) : settingsOk (validateSettings raw) := by
  cases raw with
  | notObject =>
    refine ⟨⟨?_, ?_⟩, ⟨?_, ?_⟩, ⟨?_, ?_⟩, ⟨?_, ?_⟩, default_colorOk⟩ <;>
      norm_num [validateSettings, DEFAULT_SETTINGS]
  | obj d =>
    refine ⟨?_, ?_, ?_, ?_, safeColor_ok _ _ default_colorOk⟩
    · exact safeNum_range d.bubbleSize 10 300 DEFAULT_SETTINGS.bubbleSize
        (by norm_num) (by norm_num [DEFAULT_SETTINGS]) (by norm_num [DEFAULT_SETTINGS])
    · exact safeNum_range d.spawnDelay 0 5000 DEFAULT_SETTINGS.spawnDelay
        (by norm_num) (by norm_num [DEFAULT_SETTINGS]) (by norm_num [DEFAULT_SETTINGS])
    · exact safeNum_range d.duration 5 3600 DEFAULT_SETTINGS.duration
        (by norm_num) (by norm_num [DEFAULT_SETTINGS]) (by norm_num [DEFAULT_SETTINGS])
    · exact safeNum_range d.sensitivity (1/10) 10 DEFAULT_SETTINGS.sensitivity
        (by norm_num) (by norm_num [DEFAULT_SETTINGS]) (by norm_num [DEFAULT_SETTINGS])

lemma validate_fixed (s : GameSettings) (h : settingsOk s) :
    validateSettings (toRaw s) = s := by
  obtain ⟨⟨hb1, hb2⟩, ⟨hs1, hs2⟩, ⟨hd1, hd2⟩, ⟨hn1, hn2⟩, hc⟩ := h
  have hgm : (validateSettings (toRaw s)).gameMode = s.gameMode :=
    safeGameMode_fixed s.gameMode _
  have hsm : (validateSettings (toRaw s)).screenMode = s.screenMode :=
    safeScreenMode_fixed s.screenMode _
  have hdf : (validateSettings (toRaw s)).difficulty = s.difficulty :=
    safeDifficulty_fixed s.difficulty _
  have hbs : (validateSettings (toRaw s)).bubbleSize = s.bubbleSize :=
    safeNum_fixed s.bubbleSize 10 300 DEFAULT_SETTINGS.bubbleSize hb1 hb2
  have hsd : (validateSettings (toRaw s)).spawnDelay = s.spawnDelay :=
    safeNum_fixed s.spawnDelay 0 5000 DEFAULT_SETTINGS.spawnDelay hs1 hs2
  have hdu : (validateSettings (toRaw s)).duration = s.duration :=
    safeNum_fixed s.duration 5 3600 DEFAULT_SETTINGS.duration hd1 hd2
  have hse : (validateSettings (toRaw s)).soundEnabled = s.soundEnabled := rfl
  have hsv : (validateSettings (toRaw s)).sensitivity = s.sensitivity :=
    safeNum_fixed s.sensitivity (1/10) 10 DEFAULT_SETTINGS.sensitivity hn1 hn2
  have hct : (validateSettings (toRaw s)).crosshairType = s.crosshairType :=
    safeCrosshairType_fixed s.crosshairType _
  have hcc : (validateSettings (toRaw s)).crosshairColor = s.crosshairColor :=
    safeColor_fixed s.crosshairColor _ hc
  cases s with
  | mk gm sm df bs sd du se sv ct cc =>
    cases hv : validateSettings (toRaw (GameSettings.mk gm sm df bs sd du se sv ct cc)) with
    | mk a1 a2 a3 a4 a5 a6 a7 a8 a9 a10 =>
      rw [hv] at hgm hsm hdf hbs hsd hdu hse hsv hct hcc
      simp only [GameSettings.mk.injEq]
      exact ⟨hgm, hsm, hdf, hbs, hsd, hdu, hse, hsv, hct, hcc⟩

/-- C8: validation is total over arbitrary untrusted input, every numeric
field of the result lies within its documented range (`bubbleSize ∈
[10,300]`, `spawnDelay ∈ [0,5000]`, `duration ∈ [5,3600]`, `sensitivity ∈
[0.1,10]`, enums and colour whitelisted by construction), and validation
is idempotent: revalidating the validated value returns it unchanged. -/
theorem c8_validate (raw : RawInput) :
    (10 ≤ (validateSettings raw).bubbleSize ∧ (validateSettings raw).bubbleSize ≤ 300)
    ∧ (0 ≤ (validateSettings raw).spawnDelay ∧ (validateSettings raw).spawnDelay ≤ 5000)
    ∧ (5 ≤ (validateSettings raw).duration ∧ (validateSettings raw).duration ≤ 3600)
    ∧ (1/10 ≤ (validateSettings raw).sensitivity ∧ (validateSettings raw).sensitivity ≤ 10)
    ∧ validateSettings (toRaw (validateSettings raw)) = validateSettings raw := by
  obtain ⟨hb, hs, hd, hn, hc⟩ := validate_ok raw
  exact ⟨hb, hs, hd, hn, validate_fixed _ ⟨hb, hs, hd, hn, hc⟩⟩

end Gorras
